import Mathlib

/-!
Shallow embedding of the ensemble decision engine, signal validator and
communication manager of the ai-scalping-ea backend
(src/backend/src/ai_orchestrator.py, src/backend/src/utils/signal_validator.py,
src/backend/src/communication.py), together with proofs of the spec's claims.

Python floats are modelled with exact rationals; wall-clock timestamps with
natural-number second counts.
-/

namespace ScalpEA

/-- Trading action, the values `"BUY"`, `"SELL"`, `"HOLD"` used throughout the code. -/
inductive Action where
  | BUY : Action
  | SELL : Action
  | HOLD : Action
deriving DecidableEq, Repr

/-- The `votes` dictionary `{"BUY": _, "SELL": _, "HOLD": _}` built by
`AIOrchestrator._weighted_vote` (insertion order BUY, SELL, HOLD). -/
structure Votes where
  buy : ℚ
  sell : ℚ
  hold : ℚ
deriving DecidableEq, Repr

/-- Dictionary read `votes[action]`. -/
def Votes.get (v : Votes) : Action → ℚ
  | Action.BUY => v.buy
  | Action.SELL => v.sell
  | Action.HOLD => v.hold

/-- Dictionary update `votes[action] += x`. -/
def Votes.add (v : Votes) (a : Action) (x : ℚ) : Votes :=
  match a with
  | Action.BUY => { v with buy := v.buy + x }
  | Action.SELL => { v with sell := v.sell + x }
  | Action.HOLD => { v with hold := v.hold + x }

/-- The initial dictionary `{"BUY": 0.0, "SELL": 0.0, "HOLD": 0.0}`. -/
def Votes.zero : Votes := ⟨0, 0, 0⟩

/-- Pointwise division `votes[action] /= total_weight` applied to every action. -/
def Votes.div (v : Votes) (t : ℚ) : Votes := ⟨v.buy / t, v.sell / t, v.hold / t⟩

/-- One valid per-agent decision dict as returned by `Agent.predict`:
`{"agent": …, "action": …, "confidence": …, "reason": …}`. -/
structure AgentResult where
  agent : String
  action : Action
  confidence : ℚ
  reason : String
deriving DecidableEq, Repr

/-- The orchestrator's in-memory `active_agents` map restricted to the field
`_weighted_vote` reads: agent name paired with `performance_score`. -/
abbrev AgentScores : Type := List (String × ℚ)

/-- Model of `self.active_agents.get(agent_name)` followed by reading `performance_score`. -/
def lookupScore (agents : AgentScores) (n : String) : Option ℚ :=
  (agents.find? (fun p => p.1 == n)).map (fun p => p.2)

/-- Loop state of `_weighted_vote`: `votes`, `total_weight`, `reasons`, `confidences`. -/
structure VoteAcc where
  votes : Votes
  total_weight : ℚ
  reasons : List String
  confidences : List ℚ
deriving Repr

/-- One iteration of the `for result in agent_results` loop of `_weighted_vote`:
look the agent up in `active_agents`; if present, accumulate
`votes[action] += weight * confidence`, `total_weight += weight`, the reason
string and the confidence; if absent, skip. -/
def voteStep (agents : AgentScores) (acc : VoteAcc) (r : AgentResult) : VoteAcc :=
  match lookupScore agents r.agent with
  | none => acc
  | some w =>
      { votes := acc.votes.add r.action (w * r.confidence)
        total_weight := acc.total_weight + w
        reasons := acc.reasons ++ [r.agent ++ ": " ++ r.reason]
        confidences := acc.confidences ++ [r.confidence] }

/-- The ensemble result dict `{"action", "confidence", "reason", "votes"}`. -/
structure EnsembleResult where
  action : Action
  confidence : ℚ
  reason : String
  votes : Votes
deriving DecidableEq, Repr

/-- Python's `max(votes, key=votes.get)` over the dict with insertion order
BUY, SELL, HOLD: the first key with the maximal value (a later key replaces
the current maximum only when strictly greater). -/
def winningAction (v : Votes) : Action :=
  if v.sell > v.buy then
    (if v.hold > v.sell then Action.HOLD else Action.SELL)
  else
    (if v.hold > v.buy then Action.HOLD else Action.BUY)

/-- Model of `np.mean(confidences) if confidences else 0.0`. -/
def meanOf (l : List ℚ) : ℚ :=
  if l = [] then 0 else l.sum / (l.length : ℚ)

/-- Model of `AIOrchestrator._weighted_vote` (ai_orchestrator.py lines 402-437):
fold the agent results, normalize the votes by `total_weight` when positive,
pick the winning action, and take the unweighted mean confidence. -/
def weighted_vote (agents : AgentScores) (agent_results : List AgentResult) :
    EnsembleResult :=
  let acc := agent_results.foldl (voteStep agents) ⟨Votes.zero, 0, [], []⟩
  let votes := if acc.total_weight > 0 then acc.votes.div acc.total_weight else acc.votes
  { action := winningAction votes
    confidence := meanOf acc.confidences
    reason := String.intercalate " | " acc.reasons
    votes := votes }

/-- Specification-side weight of one result: the looked-up `performance_score`,
0 when the agent is absent (an absent agent contributes nothing in the code). -/
def resultWeight (agents : AgentScores) (r : AgentResult) : ℚ :=
  (lookupScore agents r.agent).getD 0

/-- Contribution of one result to `votes[a]`: `weight * confidence` when the
result's action is `a`, else 0. -/
def actionContrib (agents : AgentScores) (a : Action) (r : AgentResult) : ℚ :=
  if r.action = a then resultWeight agents r * r.confidence else 0

/-- Sum `Σ (wᵢ·cᵢ | actionᵢ = a)` over the result list. -/
def voteSumFor (agents : AgentScores) (rs : List AgentResult) (a : Action) : ℚ :=
  (rs.map (actionContrib agents a)).sum

/-- Sum `Σ wᵢ` over the result list. -/
def totalWeightOf (agents : AgentScores) (rs : List AgentResult) : ℚ :=
  (rs.map (resultWeight agents)).sum

/-- Sum `Σ wᵢ·cᵢ` over the result list, all actions together. -/
def weightedConfSum (agents : AgentScores) (rs : List AgentResult) : ℚ :=
  (rs.map (fun r => resultWeight agents r * r.confidence)).sum

/-- The configuration fields consumed by the modelled code paths
(config.py: `confidence_threshold`, default 0.75). -/
structure Settings where
  confidence_threshold : ℚ
deriving Repr

/-- A record kept in `SignalValidator.recent_signals`: `_record_signal` always
stores a string under `'symbol'` (falling back to `"UNKNOWN"`), together with
action, confidence and the recording timestamp (`datetime.now()`, modelled in
whole seconds). -/
structure SignalRecord where
  symbol : String
  action : Action
  confidence : ℚ
  timestamp : ℕ
deriving DecidableEq, Repr

/-- The signal dict as seen by `SignalValidator.validate_signal`. The `'symbol'`
key is optional: the `ensemble_result` dict built by `get_ensemble_signal`
carries no `'symbol'` key, so `signal.get('symbol')` returns `None` there,
modelled as `none`. Presence and typing of `'action'`/`'confidence'` are
enforced by the embedding's types. -/
structure ValSignal where
  symbol : Option String
  action : Action
  confidence : ℚ
deriving DecidableEq, Repr

/-- Mutable state of `SignalValidator`: the bounded `recent_signals` FIFO list
(oldest first). -/
structure ValidatorState where
  recent_signals : List SignalRecord
deriving DecidableEq, Repr

/-- Constant `self.max_signal_history = 100`. -/
def max_signal_history : ℕ := 100

/-- Model of `SignalValidator._validate_basic_structure`: the required keys are present
and well-typed by construction in this embedding, and every `Action` value is
one of `'BUY'`, `'SELL'`, `'HOLD'`, so the check always passes. -/
def validate_basic_structure (_s : ValSignal) : Bool := true

/-- Model of `SignalValidator._validate_confidence`: reject when
`confidence < settings.confidence_threshold`. -/
def validate_confidence (st : Settings) (s : ValSignal) : Bool :=
  !(s.confidence < st.confidence_threshold)

/-- Model of `SignalValidator._validate_market_conditions` (signal_validator.py lines
93-104): reject when `not (0 <= datetime.now().hour <= 23)`; the extreme-event
check is a comment only, so the hour test is the whole function. -/
def validate_market_conditions (current_hour : ℕ) : Bool :=
  decide (0 ≤ current_hour ∧ current_hour ≤ 23)

/-- Model of `SignalValidator._validate_risk_management`: placeholder, always passes. -/
def validate_risk_management (_s : ValSignal) : Bool := true

/-- Model of `SignalValidator._validate_volatility`: placeholder, always passes. -/
def validate_volatility (_s : ValSignal) : Bool := true

/-- Model of `SignalValidator._validate_spread`: placeholder, always passes. -/
def validate_spread (_s : ValSignal) : Bool := true

/-- Python `==` between `s.get('symbol')` on a stored record (always a string)
and `signal.get('symbol')` (possibly `None`): `None` equals no string. -/
def symbolMatches (rec : SignalRecord) (s : ValSignal) : Bool :=
  match s.symbol with
  | none => false
  | some sym => rec.symbol == sym

/-- Python's `timedelta.seconds` of `now - ts`: the seconds part of the
difference, i.e. the difference modulo one day (the recorded timestamp is in
the past, so the difference is non-negative). -/
def timeDiffSeconds (now ts : ℕ) : ℕ := (now - ts) % 86400

/-- Model of `SignalValidator._validate_signal_frequency` (signal_validator.py lines
113-133): reject when at least 3 of the last 20 recorded signals carry the same
`'symbol'` value as the incoming signal, or when the most recent such record
is less than 60 seconds old. -/
def validate_signal_frequency (v : ValidatorState) (now : ℕ) (s : ValSignal) :
    Bool :=
  let recent_symbol_signals :=
    (v.recent_signals.drop (v.recent_signals.length - 20)).filter
      (fun rec => symbolMatches rec s)
  if recent_symbol_signals.length ≥ 3 then false
  else
    match v.recent_signals.reverse.find? (fun rec => symbolMatches rec s) with
    | some last => !(timeDiffSeconds now last.timestamp < 60)
    | none => true

/-- Model of `SignalValidator._record_signal` (signal_validator.py lines 152-165):
append `{symbol or "UNKNOWN", action, confidence, now}` and pop the oldest
entry when the history exceeds `max_signal_history`. -/
def record_signal (v : ValidatorState) (now : ℕ) (s : ValSignal) :
    ValidatorState :=
  let l := v.recent_signals ++ [⟨s.symbol.getD "UNKNOWN", s.action, s.confidence, now⟩]
  ⟨if l.length > max_signal_history then l.drop 1 else l⟩

/-- Model of `SignalValidator.validate_signal` (signal_validator.py lines 22-62): the
ordered short-circuiting gate pipeline; only a signal passing every gate is
recorded into `recent_signals`. Returns the verdict and the updated state. -/
def validate_signal (st : Settings) (v : ValidatorState) (now current_hour : ℕ)
    (s : ValSignal) : Bool × ValidatorState :=
  if !validate_basic_structure s then (false, v)
  else if !validate_confidence st s then (false, v)
  else if !validate_market_conditions current_hour then (false, v)
  else if !validate_risk_management s then (false, v)
  else if !validate_signal_frequency v now s then (false, v)
  else if !validate_volatility s then (false, v)
  else if !validate_spread s then (false, v)
  else (true, record_signal v now s)

/-- One row of the `ai_performance` audit table as written by
`AIOrchestrator._log_signal`, restricted to the fields derived from the signal. -/
structure AuditEntry where
  symbol : String
  action : Action
  confidence : ℚ
deriving DecidableEq, Repr

/-- Model of `AIOrchestrator._log_signal` (ai_orchestrator.py lines 439-467): always
attempted after validation; the insert lands in the audit table only when the
database accepts it (`dbOk`); a failure is caught and the call returns normally. -/
def log_signal (dbOk : Bool) (audit : List AuditEntry) (symbol : String)
    (er : EnsembleResult) : List AuditEntry :=
  if dbOk then audit ++ [⟨symbol, er.action, er.confidence⟩] else audit

/-- The reason fragment appended by the confidence gate in
`get_ensemble_signal`: `" | Confidence below threshold ({threshold})"`. -/
def confidenceGateFragment (st : Settings) : String :=
  " | Confidence below threshold (" ++ toString st.confidence_threshold ++ ")"

/-- The confidence gate of `get_ensemble_signal` (ai_orchestrator.py lines
387-390): when `confidence < settings.confidence_threshold`, force
`action = 'HOLD'` and append the reason fragment; `votes` and `confidence`
are left untouched. -/
def applyConfidenceGate (st : Settings) (er : EnsembleResult) : EnsembleResult :=
  if er.confidence < st.confidence_threshold then
    { er with action := Action.HOLD
              reason := er.reason ++ confidenceGateFragment st }
  else er

/-- The validation gate of `get_ensemble_signal` (ai_orchestrator.py lines
392-395): when the validator rejects, force `action = 'HOLD'` and append
`" | Failed signal validation"`. -/
def applyValidationGate (ok : Bool) (er : EnsembleResult) : EnsembleResult :=
  if ok then er
  else { er with action := Action.HOLD
                 reason := er.reason ++ " | Failed signal validation" }

/-- The `ValSignal` handed to the validator by `get_ensemble_signal`: the
(possibly gated) `ensemble_result` dict, which carries no `'symbol'` key. -/
def ensembleValSignal (er : EnsembleResult) : ValSignal :=
  ⟨none, er.action, er.confidence⟩

/-- Combined output of one `get_ensemble_signal` call: the returned dict, the
validator state after the call, and the audit table after the call. -/
structure EnsembleCallOutput where
  result : EnsembleResult
  vstate : ValidatorState
  audit : List AuditEntry
deriving Repr

/-- Model of `AIOrchestrator.get_ensemble_signal` (ai_orchestrator.py lines 348-400).
Inputs beyond the call arguments: `agents` is the `active_agents` map
(name, performance_score); `predictions` are the gathered per-agent outcomes,
`none` standing for an exception or a malformed result filtered out by the
`isinstance`/`'action' in result` test; `now`/`current_hour` model the clock;
`dbOk` models whether the audit insert in `_log_signal` succeeds. The early
returns (no active agents, no valid predictions) skip `_log_signal`. -/
def get_ensemble_signal (st : Settings) (agents : AgentScores)
    (symbol : String) (predictions : List (Option AgentResult))
    (v : ValidatorState) (now current_hour : ℕ) (dbOk : Bool)
    (audit : List AuditEntry) : EnsembleCallOutput :=
  if agents = [] then
    ⟨⟨Action.HOLD, 0, "No active agents available", Votes.zero⟩, v, audit⟩
  else
    let valid_results := predictions.filterMap id
    if valid_results = [] then
      ⟨⟨Action.HOLD, 0, "No valid agent predictions", Votes.zero⟩, v, audit⟩
    else
      let er := weighted_vote agents valid_results
      let gated := applyConfidenceGate st er
      let vr := validate_signal st v now current_hour (ensembleValSignal gated)
      let final := applyValidationGate vr.1 gated
      ⟨final, vr.2, log_signal dbOk audit symbol final⟩

/-- The decision dict returned by `Agent.predict`. -/
structure Decision where
  agent : String
  action : Action
  confidence : ℚ
  reason : String
deriving DecidableEq, Repr

/-- Model of `Agent.predict` (ai_orchestrator.py lines 43-74). Control flow:
`if not self.model: await self.load_model()` runs OUTSIDE the try block and
`load_model` re-raises on failure, so a load failure propagates
(`Except.error`). The try block wraps preprocessing, `self.model.predict`
and post-processing; its outcome is abstracted as `body` — `Except.ok`
carries the post-processed `(action, confidence, reason)` triple, and any
exception inside the block (`Except.error`) is caught and mapped to the
`HOLD`/0/`"Error: …"` decision. -/
def Agent.predict (name : String) (modelLoaded : Bool) (loadFails : Bool)
    (body : Except String (Action × ℚ × String)) : Except String Decision :=
  if modelLoaded = false ∧ loadFails = true then
    Except.error "model load failed"
  else
    match body with
    | Except.ok (a, c, r) => Except.ok ⟨name, a, c, r⟩
    | Except.error e => Except.ok ⟨name, Action.HOLD, 0, "Error: " ++ e⟩

/-- A registry/backup row restricted to what `_swap_model` reads:
`model_path`, `version`, `performance_score`. -/
structure AgentInfo where
  model_path : String
  version : String
  performance_score : ℚ
deriving DecidableEq, Repr

/-- The in-memory `active_agents` map (name to agent), as an association list. -/
abbrev AgentMap : Type := List (String × AgentInfo)

/-- Dictionary lookup `self.active_agents.get(name)`. -/
def mapLookup (m : AgentMap) (n : String) : Option AgentInfo :=
  (m.find? (fun p => p.1 == n)).map (fun p => p.2)

/-- Dictionary assignment `self.active_agents[name] = agent` (replaces the
existing binding or appends a new one). -/
def mapSet (m : AgentMap) (n : String) (a : AgentInfo) : AgentMap :=
  if m.any (fun p => p.1 == n) then
    m.map (fun p => if p.1 == n then (n, a) else p)
  else m ++ [(n, a)]

/-- Model of `AIOrchestrator._swap_model` (ai_orchestrator.py lines 578-613), restricted
to its effect on the live `active_agents` map: the new agent is constructed and
loaded first, and only after a successful load does the single assignment
`self.active_agents[agent_name] = new_agent` run; any exception (in particular
a load failure, `loadOk = false`) is caught and leaves the map untouched. -/
def swap_model (m : AgentMap) (agent_name : String) (backup : AgentInfo)
    (loadOk : Bool) : AgentMap :=
  if loadOk then mapSet m agent_name backup else m

/-- The observable states of the live map during one `_swap_model` call: the
map before the assignment and, when the load succeeded, the map after the
single reference assignment. No intermediate state removes the entry. -/
def swap_trace (m : AgentMap) (agent_name : String) (backup : AgentInfo)
    (loadOk : Bool) : List AgentMap :=
  if loadOk then [m, mapSet m agent_name backup] else [m]

/-- One row of the 24-hour aggregate query in `_update_performance_scores`. -/
structure PerfRow where
  agent_name : String
  win_rate : ℚ
  avg_pnl : ℚ
  trade_count : ℕ
deriving DecidableEq, Repr

/-- The composite score of `_update_performance_scores`:
`clip((win_rate * 0.7) + (min(avg_pnl / 100, 1.0) * 0.3), 0, 1)`. -/
def perfScore (r : PerfRow) : ℚ :=
  max 0 (min 1 (r.win_rate * (7/10) + min (r.avg_pnl / 100) 1 * (3/10)))

/-- The in-memory `performance_score` of each active agent, as an association
list name ↦ score. -/
abbrev ScoreMap : Type := List (String × ℚ)

/-- In-memory update `self.active_agents[agent_name].performance_score = s`,
guarded by `if agent_name in self.active_agents` (update only, no insert). -/
def setScore (scores : ScoreMap) (n : String) (s : ℚ) : ScoreMap :=
  scores.map (fun p => if p.1 == n then (n, s) else p)

/-- The row loop of `_update_performance_scores` (ai_orchestrator.py lines
499-521). `i` counts the UPDATE statements attempted so far and `updOk i`
says whether the i-th one succeeds. A row with fewer than 10 trades is
skipped without touching the database. When an UPDATE raises
(`updOk i = false`), the exception aborts the loop and is caught by the
enclosing handler, leaving the in-memory updates already applied in place. -/
def updateScoresLoop (updOk : ℕ → Bool) : ℕ → List PerfRow → ScoreMap → ScoreMap
  | _, [], scores => scores
  | i, r :: rest, scores =>
      if r.trade_count ≥ 10 then
        if updOk i then
          updateScoresLoop updOk (i + 1) rest (setScore scores r.agent_name (perfScore r))
        else scores
      else updateScoresLoop updOk i rest scores

/-- Model of `AIOrchestrator._update_performance_scores` (ai_orchestrator.py lines
480-526), restricted to its effect on the in-memory scores: run the row loop
from the first UPDATE statement; the final `commit` does not touch memory. -/
def update_performance_scores (updOk : ℕ → Bool) (rows : List PerfRow)
    (scores : ScoreMap) : ScoreMap :=
  updateScoresLoop updOk 0 rows scores

/-- The two transport bridges owned by `CommunicationManager`. -/
inductive Bridge where
  | zmq : Bridge
  | websocket : Bridge
deriving DecidableEq, Repr

/-- The bridge the other one fails over to. -/
def otherBridge : Bridge → Bridge
  | Bridge.zmq => Bridge.websocket
  | Bridge.websocket => Bridge.zmq

/-- One tick of `CommunicationManager._health_monitor` (communication.py lines
375-398), restricted to its effect on `active_bridge`: flip to the other
bridge exactly when the active one reports unhealthy while the other reports
healthy; otherwise leave the flag unchanged. -/
def healthMonitorTick (active : Bridge) (zmq_healthy ws_healthy : Bool) :
    Bridge :=
  if active = Bridge.zmq ∧ zmq_healthy = false ∧ ws_healthy = true then
    Bridge.websocket
  else if active = Bridge.websocket ∧ ws_healthy = false ∧ zmq_healthy = true then
    Bridge.zmq
  else active

/-- Which health flag `_health_monitor` reads for a given bridge. -/
def bridgeHealth (b : Bridge) (zmq_healthy ws_healthy : Bool) : Bool :=
  match b with
  | Bridge.zmq => zmq_healthy
  | Bridge.websocket => ws_healthy

/-- Fixture: one `get_ensemble_signal` call for symbol `"EURUSD"` with a
single always-BUY full-confidence agent of weight 1 and a confidence
threshold of 0, starting from validator state `v` at time `now` (hour 10),
with a succeeding audit insert and an empty prior audit list. -/
def demoCall (v : ValidatorState) (now : ℕ) : EnsembleCallOutput :=
  get_ensemble_signal ⟨0⟩ [("a", 1)] "EURUSD"
    [some ⟨"a", Action.BUY, 1, "r"⟩] v now 10 true []

/-!  Helper lemmas about the weighted-vote fold. -/

theorem Votes.get_add (v : Votes) (act a : Action) (x : ℚ) :
    (v.add act x).get a = v.get a + if act = a then x else 0 := by
  cases act <;> cases a <;> simp [Votes.add, Votes.get]

theorem Votes.get_div (v : Votes) (t : ℚ) (a : Action) :
    (v.div t).get a = v.get a / t := by
  cases a <;> simp [Votes.div, Votes.get]

theorem foldl_voteStep_total (agents : AgentScores) :
    ∀ (rs : List AgentResult) (acc : VoteAcc),
      (rs.foldl (voteStep agents) acc).total_weight
        = acc.total_weight + totalWeightOf agents rs := by
  intro rs
  induction rs with
  | nil => intro acc; simp [totalWeightOf]
  | cons r t ih =>
      intro acc
      simp only [List.foldl_cons, totalWeightOf, List.map_cons, List.sum_cons] at *
      rw [ih]
      unfold voteStep resultWeight
      cases h : lookupScore agents r.agent with
      | none => simp [h]
      | some w => simp [h]; ring

theorem foldl_voteStep_votes (agents : AgentScores) :
    ∀ (rs : List AgentResult) (acc : VoteAcc) (a : Action),
      ((rs.foldl (voteStep agents) acc).votes).get a
        = acc.votes.get a + voteSumFor agents rs a := by
  intro rs
  induction rs with
  | nil => intro acc a; simp [voteSumFor]
  | cons r t ih =>
      intro acc a
      simp only [List.foldl_cons, voteSumFor, List.map_cons, List.sum_cons] at *
      rw [ih]
      unfold voteStep actionContrib resultWeight
      cases h : lookupScore agents r.agent with
      | none => simp [h]
      | some w => simp [h, Votes.get_add]; ring

theorem voteSum_three (agents : AgentScores) (rs : List AgentResult) :
    voteSumFor agents rs Action.BUY + voteSumFor agents rs Action.SELL
      + voteSumFor agents rs Action.HOLD = weightedConfSum agents rs := by
  induction rs with
  | nil => simp [voteSumFor, weightedConfSum]
  | cons r t ih =>
      simp only [voteSumFor, weightedConfSum, List.map_cons, List.sum_cons] at *
      cases hr : r.action <;> simp [actionContrib, hr] <;> linarith [ih]

/-- C9: at every health-monitor tick, the `active_bridge` flag switches to the
other bridge exactly when the active bridge reports unhealthy while the other
reports healthy; in every other health combination it is left unchanged. -/
theorem health_monitor_failover :
    ∀ (active : Bridge) (zmq_healthy ws_healthy : Bool),
      healthMonitorTick active zmq_healthy ws_healthy =
        if bridgeHealth active zmq_healthy ws_healthy = false ∧
           bridgeHealth (otherBridge active) zmq_healthy ws_healthy = true
        then otherBridge active else active := by
  intro active zmq_healthy ws_healthy
  cases active <;> cases zmq_healthy <;> cases ws_healthy <;> rfl

/-- C10: the market-condition check of the validator accepts every possible
hour of the day (its test `0 <= hour <= 23` holds for every hour a clock can
produce), so the time-window gate never rejects a signal. -/
theorem market_conditions_always_pass (h : ℕ) (hh : h < 24) :
    validate_market_conditions h = true := by
  simp [validate_market_conditions]
  omega

/-- Witness for C10 at the concrete hour 5. -/
theorem market_conditions_always_pass_witness :
    validate_market_conditions 5 = true :=
  market_conditions_always_pass 5 (by decide)

/-- C1 (amended): for a non-empty list of valid agent decisions whose agents
all carry weights, with positive total weight `Σwᵢ`, each normalized vote is
`votes[a] = Σ(wᵢ·cᵢ | action=a) / Σwᵢ`; the sum of the three normalized votes
equals `Σ(wᵢ·cᵢ) / Σwᵢ` — the weight-weighted mean confidence — rather than
1.0. -/
theorem weighted_vote_votes_characterization (agents : AgentScores)
    (rs : List AgentResult) (hne : rs ≠ [])
    (hvalid : ∀ r ∈ rs, (lookupScore agents r.agent).isSome)
    (hW : 0 < totalWeightOf agents rs) :
    (∀ a, (weighted_vote agents rs).votes.get a
        = voteSumFor agents rs a / totalWeightOf agents rs) ∧
    (weighted_vote agents rs).votes.get Action.BUY
      + (weighted_vote agents rs).votes.get Action.SELL
      + (weighted_vote agents rs).votes.get Action.HOLD
      = weightedConfSum agents rs / totalWeightOf agents rs := by
  have hT : (rs.foldl (voteStep agents) ⟨Votes.zero, 0, [], []⟩).total_weight
      = totalWeightOf agents rs := by
    rw [foldl_voteStep_total]; ring
  have hv : ∀ a, ((rs.foldl (voteStep agents) ⟨Votes.zero, 0, [], []⟩).votes).get a
      = voteSumFor agents rs a := by
    intro a
    rw [foldl_voteStep_votes]
    simp [Votes.zero, Votes.get]
    cases a <;> simp [Votes.get]
  have hgate : ∀ a, (weighted_vote agents rs).votes.get a
      = voteSumFor agents rs a / totalWeightOf agents rs := by
    intro a
    show ((if (rs.foldl (voteStep agents) ⟨Votes.zero, 0, [], []⟩).total_weight > 0 then
        (rs.foldl (voteStep agents) ⟨Votes.zero, 0, [], []⟩).votes.div
          (rs.foldl (voteStep agents) ⟨Votes.zero, 0, [], []⟩).total_weight
      else (rs.foldl (voteStep agents) ⟨Votes.zero, 0, [], []⟩).votes) : Votes).get a
      = voteSumFor agents rs a / totalWeightOf agents rs
    rw [hT, if_pos hW, Votes.get_div, hv]
  refine ⟨hgate, ?_⟩
  rw [hgate, hgate, hgate, div_add_div_same, div_add_div_same, voteSum_three]

/-- Witness for C1 at the spec's Scenario A inputs (weights 0.8 and 0.5,
confidences 0.9 and 0.6). -/
theorem weighted_vote_votes_characterization_witness :
    (weighted_vote [("A", 4/5), ("B", 1/2)]
        [⟨"A", Action.BUY, 9/10, "x"⟩, ⟨"B", Action.SELL, 3/5, "y"⟩]).votes.get Action.BUY
      = voteSumFor [("A", 4/5), ("B", 1/2)]
          [⟨"A", Action.BUY, 9/10, "x"⟩, ⟨"B", Action.SELL, 3/5, "y"⟩] Action.BUY
        / totalWeightOf [("A", 4/5), ("B", 1/2)]
            [⟨"A", Action.BUY, 9/10, "x"⟩, ⟨"B", Action.SELL, 3/5, "y"⟩] :=
  (weighted_vote_votes_characterization [("A", 4/5), ("B", 1/2)]
      [⟨"A", Action.BUY, 9/10, "x"⟩, ⟨"B", Action.SELL, 3/5, "y"⟩]
      (by simp) (by intro r hr; fin_cases hr <;> simp [lookupScore])
      (by simp [totalWeightOf, resultWeight, lookupScore, List.find?]; norm_num)).1 Action.BUY

/-- C1 counterexample: a single valid decision with weight 1 and confidence
0.5 yields positive total weight, yet the three normalized votes sum to 0.5,
not 1.0 — refuting the claim's `Σ votes = 1.0` invariant. -/
theorem weighted_vote_sum_of_votes_ne_one :
    0 < totalWeightOf [("a", 1)] [⟨"a", Action.BUY, 1/2, "r"⟩] ∧
    ¬ ((weighted_vote [("a", 1)] [⟨"a", Action.BUY, 1/2, "r"⟩]).votes.get Action.BUY
        + (weighted_vote [("a", 1)] [⟨"a", Action.BUY, 1/2, "r"⟩]).votes.get Action.SELL
        + (weighted_vote [("a", 1)] [⟨"a", Action.BUY, 1/2, "r"⟩]).votes.get Action.HOLD
        = 1) := by
  constructor
  · norm_num [totalWeightOf, resultWeight, lookupScore, List.find?]
  · simp [weighted_vote, voteStep, lookupScore, Votes.zero, Votes.add, Votes.div,
      Votes.get, meanOf, winningAction, List.find?]

/-- C4 (amended): with no active agents, `get_ensemble_signal` returns exactly
`{action: HOLD, confidence: 0.0, reason: "No active agents available"}` with
all votes zero, leaving the validator state and the audit sink untouched. -/
theorem no_active_agents_default (st : Settings) (symbol : String)
    (preds : List (Option AgentResult)) (v : ValidatorState) (now hour : ℕ)
    (dbOk : Bool) (audit : List AuditEntry) :
    get_ensemble_signal st [] symbol preds v now hour dbOk audit
      = ⟨⟨Action.HOLD, 0, "No active agents available", Votes.zero⟩, v, audit⟩ :=
  rfl

/-- C4 counterexample: the reason string returned for an empty agent set is
`"No active agents available"`, so the returned dict differs from the claimed
`{action: HOLD, confidence: 0.0, reason: "No active agents"}`. -/
theorem no_active_agents_reason_differs :
    (get_ensemble_signal ⟨3/4⟩ [] "EURUSD" [] ⟨[]⟩ 0 0 true []).result
      ≠ ⟨Action.HOLD, 0, "No active agents", Votes.zero⟩ := by
  simp [get_ensemble_signal]

/-- C5 (amended): any failure inside `predict`'s try block — preprocessing,
the model inference call, post-processing — is caught and mapped to
`{action: HOLD, confidence: 0, reason: "Error: …"}`; only a failure of
`load_model`, invoked outside the try block when the model is not yet loaded,
propagates to the caller. -/
theorem predict_catches_try_block_failures (name : String)
    (modelLoaded loadFails : Bool) (e : String)
    (h : modelLoaded = true ∨ loadFails = false) :
    Agent.predict name modelLoaded loadFails (Except.error e)
      = Except.ok ⟨name, Action.HOLD, 0, "Error: " ++ e⟩ := by
  rcases h with h | h <;> simp [Agent.predict, h]

/-- Witness for C5: the in-try failure path at a concrete input. -/
theorem predict_catches_try_block_failures_witness :
    Agent.predict "technical" true false (Except.error "Model error")
      = Except.ok ⟨"technical", Action.HOLD, 0, "Error: " ++ "Model error"⟩ :=
  predict_catches_try_block_failures "technical" true false "Model error" (Or.inl rfl)

/-- C5 counterexample: with the model not yet loaded and the load failing,
`predict` propagates the load exception instead of returning a HOLD decision —
refuting the claim that `predict` never propagates any internal failure. -/
theorem predict_load_failure_propagates :
    Agent.predict "technical" false true (Except.ok (Action.BUY, 1, "ok"))
      = Except.error "model load failed" :=
  rfl

/-- Reading a cons cell of the live agent map. -/
theorem mapLookup_cons (q : String × AgentInfo) (l : AgentMap) (n : String) :
    mapLookup (q :: l) n = if q.1 == n then some q.2 else mapLookup l n := by
  rcases h : (q.1 == n) with _ | _ <;> simp [mapLookup, List.find?, h]

/-- Setting a key whose head entry does not match pushes the update inward. -/
theorem mapSet_cons_ne (p : String × AgentInfo) (t : AgentMap) (n : String)
    (a : AgentInfo) (hp : (p.1 == n) = false) :
    mapSet (p :: t) n a = p :: mapSet t n a := by
  have hp' : ¬ p.1 = n := by simpa using hp
  rcases ht : t.any (fun q => q.1 == n) with _ | _ <;>
    simp [mapSet, List.any_cons, hp, ht, hp']

/-- Setting a key whose head entry matches rewrites the head in place. -/
theorem mapSet_cons_eq (p : String × AgentInfo) (t : AgentMap) (n : String)
    (a : AgentInfo) (hp : (p.1 == n) = true) :
    mapSet (p :: t) n a
      = (n, a) :: t.map (fun q => if q.1 == n then (n, a) else q) := by
  have hp' : p.1 = n := by simpa using hp
  simp [mapSet, List.any_cons, hp, hp']

/-- Dictionary assignment makes the key resolve to the new value. -/
theorem mapLookup_mapSet (m : AgentMap) (n : String) (a : AgentInfo) :
    mapLookup (mapSet m n a) n = some a := by
  induction m with
  | nil => simp [mapSet, mapLookup, List.find?]
  | cons p t ih =>
      rcases hp : (p.1 == n) with _ | _
      · rw [mapSet_cons_ne p t n a hp, mapLookup_cons]
        simp [hp, ih]
      · rw [mapSet_cons_eq p t n a hp, mapLookup_cons]
        simp

/-- C6: during a hot-swap, a failed load of the backup candidate leaves the
live agent map unchanged (the previous agent keeps serving), and at every
observable instant of the swap the agent name still resolves to an agent. -/
theorem swap_model_preserves_serving (m : AgentMap) (agent_name : String)
    (backup : AgentInfo) (loadOk : Bool) (a : AgentInfo)
    (h : mapLookup m agent_name = some a) :
    (loadOk = false → swap_model m agent_name backup loadOk = m) ∧
    (∀ s ∈ swap_trace m agent_name backup loadOk,
      (mapLookup s agent_name).isSome = true) := by
  constructor
  · intro hl; simp [swap_model, hl]
  · intro s hs
    cases loadOk with
    | false =>
        simp [swap_trace] at hs
        subst hs; simp [h]
    | true =>
        simp [swap_trace] at hs
        rcases hs with hs | hs <;> subst hs
        · simp [h]
        · simp [mapLookup_mapSet]

/-- Witness for C6: a failed swap at a concrete map leaves the map unchanged. -/
theorem swap_model_preserves_serving_witness :
    swap_model [("technical", ⟨"/models/a.pkl", "1.0", 1/2⟩)] "technical"
        ⟨"/models/b.pkl", "2.0", 7/10⟩ false
      = [("technical", ⟨"/models/a.pkl", "1.0", 1/2⟩)] :=
  (swap_model_preserves_serving [("technical", ⟨"/models/a.pkl", "1.0", 1/2⟩)]
      "technical" ⟨"/models/b.pkl", "2.0", 7/10⟩ false ⟨"/models/a.pkl", "1.0", 1/2⟩
      (by simp [mapLookup, List.find?])).1 rfl

/-- Reading a cons cell of the score map. -/
theorem lookupScore_cons (q : String × ℚ) (l : AgentScores) (n : String) :
    lookupScore (q :: l) n = if q.1 == n then some q.2 else lookupScore l n := by
  rcases h : (q.1 == n) with _ | _ <;> simp [lookupScore, List.find?, h]

/-- Updating one agent's in-memory score leaves every other agent's score
untouched. -/
theorem lookupScore_setScore_ne (sc : ScoreMap) (m n : String) (s : ℚ)
    (h : (m == n) = false) :
    lookupScore (setScore sc m s) n = lookupScore sc n := by
  induction sc with
  | nil => simp [setScore]
  | cons p t ih =>
      rcases hp : (p.1 == m) with _ | _
      · have : setScore (p :: t) m s = p :: setScore t m s := by
          simp only [setScore, List.map_cons, hp]
          simp
        rw [this, lookupScore_cons, lookupScore_cons, ih]
      · have hpm : p.1 = m := by simpa using hp
        have hpn : (p.1 == n) = false := by
          rw [hpm]; exact h
        have : setScore (p :: t) m s = (m, s) :: setScore t m s := by
          simp only [setScore, List.map_cons, hp]
          simp
        rw [this, lookupScore_cons, lookupScore_cons, ih]
        simp [h, hpn]

/-- When the very first attempted UPDATE statement fails, the whole scoring
pass leaves the in-memory scores untouched. -/
theorem updateScoresLoop_firstFail (updOk : ℕ → Bool) (h0 : updOk 0 = false) :
    ∀ (rows : List PerfRow) (scores : ScoreMap),
      updateScoresLoop updOk 0 rows scores = scores := by
  intro rows
  induction rows with
  | nil => intro scores; rfl
  | cons r t ih =>
      intro scores
      by_cases hc : r.trade_count ≥ 10 <;> simp [updateScoresLoop, hc, h0, ih]

/-- Agents named in none of the rows keep their in-memory score no matter
where the pass stops. -/
theorem updateScoresLoop_notin (updOk : ℕ → Bool) (n : String) :
    ∀ (rows : List PerfRow) (i : ℕ) (scores : ScoreMap),
      (∀ r ∈ rows, r.agent_name ≠ n) →
      lookupScore (updateScoresLoop updOk i rows scores) n = lookupScore scores n := by
  intro rows
  induction rows with
  | nil => intro i scores _; rfl
  | cons r t ih =>
      intro i scores hmem
      have hr : r.agent_name ≠ n := hmem r (by simp)
      have hrb : (r.agent_name == n) = false := by simpa using hr
      have ht : ∀ x ∈ t, x.agent_name ≠ n := fun x hx => hmem x (by simp [hx])
      by_cases hc : r.trade_count ≥ 10
      · rcases hu : updOk i with _ | _
        · simp [updateScoresLoop, hc, hu]
        · simp only [updateScoresLoop, if_pos hc, hu, if_true, eq_self_iff_true]
          rw [ih (i + 1) (setScore scores r.agent_name (perfScore r)) ht]
          exact lookupScore_setScore_ne scores r.agent_name n (perfScore r) hrb
      · simp only [updateScoresLoop, if_neg hc]
        exact ih i scores ht

/-- C7 (amended): a failing persistence operation aborts the scoring pass at
that row — the failing row and all later rows cause no in-memory change, and
agents not named in the result set are never touched; in particular a failure
on the first attempted UPDATE (or in the initial query) leaves every in-memory
`performance_score` unchanged. In-memory updates applied before the failing
operation, however, remain (see the counterexample). -/
theorem update_scores_failure_behavior (updOk : ℕ → Bool) (rows : List PerfRow)
    (scores : ScoreMap) :
    (updOk 0 = false → update_performance_scores updOk rows scores = scores) ∧
    (∀ (i : ℕ) (r : PerfRow) (t : List PerfRow) (sc : ScoreMap),
      r.trade_count ≥ 10 → updOk i = false →
      updateScoresLoop updOk i (r :: t) sc = sc) ∧
    (∀ n : String, (∀ r ∈ rows, r.agent_name ≠ n) →
      lookupScore (update_performance_scores updOk rows scores) n
        = lookupScore scores n) := by
  refine ⟨?_, ?_, ?_⟩
  · intro h0
    exact updateScoresLoop_firstFail updOk h0 rows scores
  · intro i r t sc hc hu
    simp [updateScoresLoop, hc, hu]
  · intro n hn
    exact updateScoresLoop_notin updOk n rows 0 scores hn

/-- Witness for C7 at a concrete pass whose first UPDATE fails. -/
theorem update_scores_failure_behavior_witness :
    update_performance_scores (fun _ => false) [⟨"A", 1, 0, 10⟩] [("A", 1/2)]
      = [("A", 1/2)] :=
  (update_scores_failure_behavior (fun _ => false) [⟨"A", 1, 0, 10⟩]
      [("A", 1/2)]).1 rfl

/-- C7 counterexample: two qualifying rows, the second UPDATE fails; agent A's
in-memory score has already been overwritten (0.5 became 0.7), so a
persistence failure does not leave every active agent's score unchanged. -/
theorem update_scores_partial_update :
    (fun i => i == 0) 1 = false ∧
    update_performance_scores (fun i => i == 0)
        [⟨"A", 1, 0, 10⟩, ⟨"B", 1, 0, 10⟩] [("A", 1/2), ("B", 1/2)]
      = [("A", 7/10), ("B", 1/2)] ∧
    lookupScore (update_performance_scores (fun i => i == 0)
        [⟨"A", 1, 0, 10⟩, ⟨"B", 1, 0, 10⟩] [("A", 1/2), ("B", 1/2)]) "A"
      ≠ some (1/2) := by
  refine ⟨rfl, ?_, ?_⟩ <;>
    simp [update_performance_scores, updateScoresLoop, setScore, perfScore,
      lookupScore, List.find?] <;> norm_num

/-- Characterization of the main path of `get_ensemble_signal`: with active
agents and at least one valid prediction, the call is the weighted vote,
the confidence gate, the validator gate, and the audit log, in that order. -/
theorem get_ensemble_signal_main (st : Settings) (agents : AgentScores)
    (symbol : String) (preds : List (Option AgentResult)) (v : ValidatorState)
    (now hour : ℕ) (dbOk : Bool) (audit : List AuditEntry)
    (hA : agents ≠ []) (hV : preds.filterMap id ≠ []) :
    get_ensemble_signal st agents symbol preds v now hour dbOk audit =
      ⟨applyValidationGate
          (validate_signal st v now hour
            (ensembleValSignal (applyConfidenceGate st
              (weighted_vote agents (preds.filterMap id))))).1
          (applyConfidenceGate st (weighted_vote agents (preds.filterMap id))),
        (validate_signal st v now hour
          (ensembleValSignal (applyConfidenceGate st
            (weighted_vote agents (preds.filterMap id))))).2,
        log_signal dbOk audit symbol
          (applyValidationGate
            (validate_signal st v now hour
              (ensembleValSignal (applyConfidenceGate st
                (weighted_vote agents (preds.filterMap id))))).1
            (applyConfidenceGate st (weighted_vote agents (preds.filterMap id))))⟩ := by
  simp [get_ensemble_signal, hA, hV]

/-- Validator rejection path for a below-threshold confidence: the pipeline
stops at the confidence gate and returns the state unchanged. -/
theorem validate_signal_rejects_low_confidence (st : Settings)
    (v : ValidatorState) (now hour : ℕ) (s : ValSignal)
    (h : s.confidence < st.confidence_threshold) :
    validate_signal st v now hour s = (false, v) := by
  simp [validate_signal, validate_basic_structure, validate_confidence, h]

/-- State component of `validate_signal`: the signal is recorded into the
FIFO history exactly when every gate passes. -/
theorem validate_signal_snd (st : Settings) (v : ValidatorState)
    (now hour : ℕ) (s : ValSignal) :
    (validate_signal st v now hour s).2
      = if (validate_signal st v now hour s).1 = true
        then record_signal v now s else v := by
  rcases h2 : validate_confidence st s with _ | _ <;>
    rcases h3 : validate_market_conditions hour with _ | _ <;>
      rcases h5 : validate_signal_frequency v now s with _ | _ <;>
        simp [validate_signal, validate_basic_structure, validate_risk_management,
          validate_volatility, validate_spread, h2, h3, h5]

/-- The validation gate never alters the confidence value. -/
theorem applyValidationGate_confidence (ok : Bool) (er : EnsembleResult) :
    (applyValidationGate ok er).confidence = er.confidence := by
  cases ok <;> simp [applyValidationGate]

/-- The validation gate never alters the votes mapping. -/
theorem applyValidationGate_votes (ok : Bool) (er : EnsembleResult) :
    (applyValidationGate ok er).votes = er.votes := by
  cases ok <;> simp [applyValidationGate]

/-- The confidence gate never alters the confidence value. -/
theorem applyConfidenceGate_confidence (st : Settings) (er : EnsembleResult) :
    (applyConfidenceGate st er).confidence = er.confidence := by
  by_cases h : er.confidence < st.confidence_threshold <;> simp [applyConfidenceGate, h]

/-- The confidence gate never alters the votes mapping. -/
theorem applyConfidenceGate_votes (st : Settings) (er : EnsembleResult) :
    (applyConfidenceGate st er).votes = er.votes := by
  by_cases h : er.confidence < st.confidence_threshold <;> simp [applyConfidenceGate, h]

/-- C3: any dict returned by `get_ensemble_signal` whose confidence is below
the configured threshold carries `action = HOLD`; on the weighted-vote path a
below-threshold vote additionally keeps the vote's confidence and votes
mapping unchanged and gets the gate's reason fragment appended (followed by
the validator's fragment, since the validator's own confidence check also
fails). -/
theorem confidence_gate_forces_hold (st : Settings) (agents : AgentScores)
    (symbol : String) (preds : List (Option AgentResult)) (v : ValidatorState)
    (now hour : ℕ) (dbOk : Bool) (audit : List AuditEntry) :
    ((get_ensemble_signal st agents symbol preds v now hour dbOk audit).result.confidence
        < st.confidence_threshold →
      (get_ensemble_signal st agents symbol preds v now hour dbOk audit).result.action
        = Action.HOLD) ∧
    (agents ≠ [] → preds.filterMap id ≠ [] →
      (weighted_vote agents (preds.filterMap id)).confidence < st.confidence_threshold →
      (get_ensemble_signal st agents symbol preds v now hour dbOk audit).result.action
          = Action.HOLD
        ∧ (get_ensemble_signal st agents symbol preds v now hour dbOk audit).result.votes
          = (weighted_vote agents (preds.filterMap id)).votes
        ∧ (get_ensemble_signal st agents symbol preds v now hour dbOk audit).result.confidence
          = (weighted_vote agents (preds.filterMap id)).confidence
        ∧ (get_ensemble_signal st agents symbol preds v now hour dbOk audit).result.reason
          = ((weighted_vote agents (preds.filterMap id)).reason
              ++ confidenceGateFragment st) ++ " | Failed signal validation") := by
  by_cases hA : agents = []
  · constructor
    · intro _
      simp [get_ensemble_signal, hA]
    · intro hne
      exact absurd hA hne
  · by_cases hV : preds.filterMap id = []
    · constructor
      · intro _
        simp [get_ensemble_signal, hA, hV]
      · intro _ hne
        exact absurd hV hne
    · rw [get_ensemble_signal_main st agents symbol preds v now hour dbOk audit hA hV]
      by_cases hc : (weighted_vote agents (preds.filterMap id)).confidence
          < st.confidence_threshold
      · have hgate : applyConfidenceGate st (weighted_vote agents (preds.filterMap id))
            = { weighted_vote agents (preds.filterMap id) with
                action := Action.HOLD
                reason := (weighted_vote agents (preds.filterMap id)).reason
                  ++ confidenceGateFragment st } := by
          simp [applyConfidenceGate, hc]
        have hval : validate_signal st v now hour
            (ensembleValSignal (applyConfidenceGate st
              (weighted_vote agents (preds.filterMap id)))) = (false, v) := by
          apply validate_signal_rejects_low_confidence
          simp [ensembleValSignal, applyConfidenceGate_confidence, hc]
        rw [hgate] at hval ⊢
        rw [hval]
        constructor
        · intro _
          simp [applyValidationGate]
        · intro _ _ _
          simp [applyValidationGate]
      · have hgate : applyConfidenceGate st (weighted_vote agents (preds.filterMap id))
            = weighted_vote agents (preds.filterMap id) := by
          simp [applyConfidenceGate, hc]
        constructor
        · intro hcc
          rw [hgate] at hcc
          rw [applyValidationGate_confidence] at hcc
          exact absurd hcc hc
        · intro _ _ hcc
          exact absurd hcc hc

/-- Witness for C3: a below-threshold vote at concrete inputs is returned as
HOLD with the vote's votes mapping intact and both reason fragments appended. -/
theorem confidence_gate_forces_hold_witness :
    (get_ensemble_signal ⟨3/4⟩ [("a", 1)] "EURUSD"
        [some ⟨"a", Action.BUY, 1/2, "r"⟩] ⟨[]⟩ 100 10 true []).result.action
      = Action.HOLD :=
  ((confidence_gate_forces_hold ⟨3/4⟩ [("a", 1)] "EURUSD"
      [some ⟨"a", Action.BUY, 1/2, "r"⟩] ⟨[]⟩ 100 10 true []).2
    (by simp) (by simp)
    (by simp [weighted_vote, voteStep, lookupScore, List.find?, Votes.zero,
          meanOf]
        norm_num)).1

/-- C8 (amended): a call of `get_ensemble_signal` that reaches the
weighted-vote stage always attempts the audit-sink insert before returning
(the entry lands whenever the database accepts it), but the validator records
the signal into its bounded FIFO frequency memory only when the signal passes
every validation gate; a signal the validator rejects — including every signal
the confidence gate forced to HOLD, whose confidence stays below the
validator's own threshold — leaves the frequency memory unchanged. -/
theorem signal_recording_behavior (st : Settings) (agents : AgentScores)
    (symbol : String) (preds : List (Option AgentResult)) (v : ValidatorState)
    (now hour : ℕ) (dbOk : Bool) (audit : List AuditEntry)
    (hA : agents ≠ []) (hV : preds.filterMap id ≠ []) :
    ((validate_signal st v now hour
        (ensembleValSignal (applyConfidenceGate st
          (weighted_vote agents (preds.filterMap id))))).1 = true →
      (get_ensemble_signal st agents symbol preds v now hour dbOk audit).vstate
        = record_signal v now
            (ensembleValSignal (applyConfidenceGate st
              (weighted_vote agents (preds.filterMap id))))) ∧
    ((validate_signal st v now hour
        (ensembleValSignal (applyConfidenceGate st
          (weighted_vote agents (preds.filterMap id))))).1 = false →
      (get_ensemble_signal st agents symbol preds v now hour dbOk audit).vstate = v) ∧
    (dbOk = true →
      (get_ensemble_signal st agents symbol preds v now hour dbOk audit).audit
        = audit ++ [⟨symbol,
            (get_ensemble_signal st agents symbol preds v now hour dbOk audit).result.action,
            (get_ensemble_signal st agents symbol preds v now hour dbOk audit).result.confidence⟩]) := by
  rw [get_ensemble_signal_main st agents symbol preds v now hour dbOk audit hA hV]
  refine ⟨?_, ?_, ?_⟩
  · intro hok
    rw [validate_signal_snd, hok]
    simp
  · intro hok
    rw [validate_signal_snd, hok]
    simp
  · intro hdb
    simp [log_signal, hdb]

/-- Witness for C8: an accepted concrete signal is recorded into the FIFO. -/
theorem signal_recording_behavior_witness :
    (get_ensemble_signal ⟨0⟩ [("a", 1)] "EURUSD"
        [some ⟨"a", Action.BUY, 1, "r"⟩] ⟨[]⟩ 100 10 true []).vstate
      = record_signal ⟨[]⟩ 100
          (ensembleValSignal (applyConfidenceGate ⟨0⟩
            (weighted_vote [("a", 1)] ([some ⟨"a", Action.BUY, 1, "r"⟩].filterMap id)))) :=
  (signal_recording_behavior ⟨0⟩ [("a", 1)] "EURUSD"
      [some ⟨"a", Action.BUY, 1, "r"⟩] ⟨[]⟩ 100 10 true []
      (by simp) (by simp)).1
    (by simp [validate_signal, validate_basic_structure, validate_confidence,
          validate_market_conditions, validate_risk_management,
          validate_volatility, validate_spread, validate_signal_frequency,
          symbolMatches, ensembleValSignal, applyConfidenceGate,
          weighted_vote, voteStep, lookupScore, List.find?, Votes.zero,
          meanOf, winningAction, Votes.div, Votes.add, Votes.get]
        norm_num)

/-- C8 counterexample: a call that reaches the weighted-vote stage but whose
signal the validator rejects (confidence 0.5 below threshold 0.75) records
nothing into the frequency memory — refuting "recorded regardless of whether
the confidence gate or the validator forced HOLD". -/
theorem rejected_signal_not_recorded :
    ([("a", (1 : ℚ))] ≠ ([] : AgentScores)) ∧
    (([some ⟨"a", Action.BUY, 1/2, "r"⟩] : List (Option AgentResult)).filterMap id ≠ []) ∧
    (get_ensemble_signal ⟨3/4⟩ [("a", 1)] "EURUSD"
        [some ⟨"a", Action.BUY, 1/2, "r"⟩] ⟨[]⟩ 100 10 true []).vstate.recent_signals
      = [] := by
  refine ⟨by simp, by simp, ?_⟩
  have hA : ([("a", (1 : ℚ))] : AgentScores) ≠ [] := by simp
  have hV : (([some ⟨"a", Action.BUY, 1/2, "r"⟩] : List (Option AgentResult)).filterMap id) ≠ [] := by simp
  rw [get_ensemble_signal_main ⟨3/4⟩ [("a", 1)] "EURUSD"
      [some ⟨"a", Action.BUY, 1/2, "r"⟩] ⟨[]⟩ 100 10 true [] hA hV]
  rw [validate_signal_rejects_low_confidence]
  simp [ensembleValSignal, applyConfidenceGate_confidence]
  simp [weighted_vote, voteStep, lookupScore, List.find?, Votes.zero, meanOf]
  norm_num

/-- Key lemma for C2: the frequency/correlation check compares the stored
`'symbol'` of each record (always a string, `"UNKNOWN"` for ensemble-produced
signals) against `signal.get('symbol')`, which is `None` for every dict built
by `get_ensemble_signal`; `None` matches no stored string, so the check passes
for every validator state. -/
theorem frequency_check_ignores_missing_symbol (v : ValidatorState) (now : ℕ)
    (s : ValSignal) (h : s.symbol = none) :
    validate_signal_frequency v now s = true := by
  have hfind : List.find? (fun (_ : SignalRecord) => false) v.recent_signals.reverse
      = none := by
    simp [List.find?_eq_none]
  simp [validate_signal_frequency, symbolMatches, h, hfind]

/-- Evaluation of the fixture call: the signal passes every validator gate
(the frequency gate cannot fire on a symbol-less dict), so the call returns
the BUY vote and appends one `"UNKNOWN"` record to the FIFO. -/
theorem demoCall_eval (v : ValidatorState) (now : ℕ) :
    (demoCall v now).result.action = Action.BUY ∧
    (demoCall v now).vstate = record_signal v now ⟨none, Action.BUY, 1⟩ := by
  have hint : String.intercalate " | " ["a: r"] = "a: r" := by decide
  have her : weighted_vote [("a", 1)] [⟨"a", Action.BUY, 1, "r"⟩]
      = ⟨Action.BUY, 1, "a: r", ⟨1, 0, 0⟩⟩ := by
    simp [weighted_vote, voteStep, lookupScore, List.find?, Votes.zero,
      Votes.add, Votes.div, meanOf, winningAction, hint]
    norm_num
  have hval : validate_signal ⟨0⟩ v now 10 ⟨none, Action.BUY, 1⟩
      = (true, record_signal v now ⟨none, Action.BUY, 1⟩) := by
    simp [validate_signal, validate_basic_structure, validate_confidence,
      validate_market_conditions, validate_risk_management, validate_volatility,
      validate_spread, frequency_check_ignores_missing_symbol]
  have hmain := get_ensemble_signal_main ⟨0⟩ [("a", 1)] "EURUSD"
    [some ⟨"a", Action.BUY, 1, "r"⟩] v now 10 true [] (by simp) (by simp)
  have hgate : applyConfidenceGate ⟨0⟩
      (weighted_vote [("a", 1)] ([some ⟨"a", Action.BUY, 1, "r"⟩].filterMap id))
      = ⟨Action.BUY, 1, "a: r", ⟨1, 0, 0⟩⟩ := by
    rw [show ([some ⟨"a", Action.BUY, 1, "r"⟩] : List (Option AgentResult)).filterMap id
        = [⟨"a", Action.BUY, 1, "r"⟩] from rfl]
    rw [her]
    simp [applyConfidenceGate]
  unfold demoCall
  rw [hmain, hgate]
  rw [show ensembleValSignal ⟨Action.BUY, 1, "a: r", ⟨1, 0, 0⟩⟩
      = (⟨none, Action.BUY, 1⟩ : ValSignal) from rfl]
  rw [hval]
  simp [applyValidationGate]

/-- C2 (code behavior at the claim's scenario): three consecutive ensemble
signals for symbol "EURUSD" are recorded, yet a fourth ensemble signal for the
same symbol — even one arriving 5 seconds after the previous — is NOT forced
to HOLD: the frequency/correlation gate never fires on signals produced by
`get_ensemble_signal`, because their dicts carry no `'symbol'` key while
records store `"UNKNOWN"`. -/
theorem frequency_gate_never_fires :
    ((demoCall (demoCall (demoCall ⟨[]⟩ 1000).vstate 2000).vstate 3000).vstate.recent_signals.length
      = 3) ∧
    ((demoCall (demoCall (demoCall (demoCall ⟨[]⟩ 1000).vstate 2000).vstate 3000).vstate 3005).result.action
      = Action.BUY) := by
  have h1 := demoCall_eval ⟨[]⟩ 1000
  have h2 := demoCall_eval (demoCall ⟨[]⟩ 1000).vstate 2000
  have h3 := demoCall_eval (demoCall (demoCall ⟨[]⟩ 1000).vstate 2000).vstate 3000
  have h4 := demoCall_eval
    (demoCall (demoCall (demoCall ⟨[]⟩ 1000).vstate 2000).vstate 3000).vstate 3005
  refine ⟨?_, h4.1⟩
  rw [h3.2, h2.2, h1.2]
  simp [record_signal, max_signal_history]

end ScalpEA
